import Mathlib

/-!
Verification of the password-generator core of this repository
(file `2)pass_generator.py`): the charset builder, the entropy
estimator, the strength classifier and the single-password
synthesizer are embedded shallowly below, and the specified
properties are proved about the embedding.

Modelling conventions:
* Python strings of characters become `List Char`.
* Python `int` becomes `ℤ` where negative values are possible.
* Python `float` becomes `ℚ` for the pure threshold classifier
  `strength_label` (all comparisons there are exact) and `ℝ` for
  `calculate_entropy_bits` (which uses `math.log2`).
* The standard-library randomness (`secrets.choice`,
  `secrets.SystemRandom().shuffle`) is external to the repository;
  it is modelled by an oracle stream `r : ℕ → ℕ` (the k-th draw
  uses `r k` to pick an index) and an oracle permutation function
  `shuffle` that every real shuffle instantiates with a permutation
  of its input.
* `raise ValueError(msg)` becomes `Except.error` with a dedicated
  error constructor per distinct message.
-/

namespace PassGen

/-- `AMBIGUOUS_CHARS = "O0Il1"` from the source. -/
def AMBIGUOUS_CHARS : List Char := "O0Il1".toList

/-- `SYMBOLS` from the source (braces, quote, apostrophe and
backtick written as escapes). -/
def SYMBOLS : List Char := "!@#$%^&*()-_=+[\x7b]\x7d\\|;:\x27\x22,<.>/?\x60~".toList

/-- Python `string.ascii_lowercase`. -/
def ascii_lowercase : List Char := "abcdefghijklmnopqrstuvwxyz".toList

/-- Python `string.ascii_uppercase`. -/
def ascii_uppercase : List Char := "ABCDEFGHIJKLMNOPQRSTUVWXYZ".toList

/-- Python `string.digits`. -/
def string_digits : List Char := "0123456789".toList

/-- The sort key used in `build_charset`:
`sorted(set(charset), key=lambda c: (c.isalnum()==False, c))`.
The pair (alnum-flag, code point) is packed into one natural number;
code points are below `0x110000 < 2^21`, so the packing is faithful
to the lexicographic order on the pair. -/
def charKey (c : Char) : ℕ := (if c.isAlphanum then 0 else 2097152) + c.toNat

/-- `build_charset(use_lower, use_upper, use_digits, use_symbols, avoid_ambiguous)`
from the source: concatenate the selected class pools, drop ambiguous
characters when requested, then deduplicate and sort by
(not-alnum, code point). Python's `sorted(set(...), key=...)` is a
deterministic sort of the distinct characters by an injective key;
`insertionSort` of the deduplicated list computes the same list. -/
def build_charset (use_lower use_upper usedigits use_symbols avoid_ambiguous : Bool) :
    List Char :=
  let cs1 : List Char :=
    (if use_lower then ascii_lowercase else []) ++
    (if use_upper then ascii_uppercase else []) ++
    (if usedigits then string_digits else []) ++
    (if use_symbols then SYMBOLS else [])
  let cs2 : List Char :=
    if avoid_ambiguous then cs1.filter (fun ch => !(AMBIGUOUS_CHARS.contains ch)) else cs1
  List.insertionSort (fun a b => charKey a ≤ charKey b) cs2.dedup

/-- `calculate_entropy_bits(charset_len, length)` from the source:
`0.0` when either argument is nonpositive, otherwise
`length * math.log2(charset_len)`. -/
noncomputable def calculate_entropy_bits (charset_len length : ℤ) : ℝ :=
  if charset_len ≤ 0 ∨ length ≤ 0 then 0
  else (length : ℝ) * Real.logb 2 (charset_len : ℝ)

/-- `strength_label(bits)` from the source: five threshold bands. -/
def strength_label (bits : ℚ) : String :=
  if bits < 28 then "Very Weak"
  else if bits < 36 then "Weak"
  else if bits < 60 then "Reasonable"
  else if bits < 80 then "Strong"
  else "Very Strong"

/-- Rank of the five labels in their intended order, used to state
monotonicity of `strength_label`. -/
def labelRank (s : String) : ℕ :=
  if s = "Very Weak" then 0
  else if s = "Weak" then 1
  else if s = "Reasonable" then 2
  else if s = "Strong" then 3
  else 4

/-- The three distinct `ValueError`s `generate_single_password` raises. -/
inductive PwError where
  | emptyCharset
  | invalidLength
  | lengthTooShort
deriving DecidableEq

/-- The message each error carries in the source. -/
def PwError.message : PwError → String
  | .emptyCharset => "Character set is empty."
  | .invalidLength => "Length must be at least 1."
  | .lengthTooShort => "Length is too short to include at least one from each required class."

/-- `secure_choice(seq)` = `secrets.choice(seq)`: one uniform draw from
`seq`, modelled by an oracle value `n`; the element at index
`n % seq.length` is returned (every index is reachable, and for a
nonempty `seq` the result is always an element of `seq`; the default
is never used on the code paths below, which guard nonemptiness). -/
def secure_choice (seq : List Char) (n : ℕ) : Char :=
  seq.getD (n % seq.length) 'a'

/-- The comprehension `[secure_choice(chars) for _, chars in required_classes]`:
one draw per class, consuming successive oracle values from index `k` on. -/
def draw_from_classes (r : ℕ → ℕ) (k : ℕ) : List (String × List Char) → List Char
  | [] => []
  | cls :: rest => secure_choice cls.2 (r k) :: draw_from_classes r (k + 1) rest

/-- The loop `for _ in range(n): append(secure_choice(charset))`:
`n` draws from `charset`, consuming oracle values from index `k` on. -/
def draw_n (r : ℕ → ℕ) (charset : List Char) (k : ℕ) : ℕ → List Char
  | 0 => []
  | n + 1 => secure_choice charset (r k) :: draw_n r charset (k + 1) n

/-- `generate_single_password(length, charset, require_each, classes)`
from the source. `r` is the oracle stream behind each `secrets.choice`
draw and `shuffle` the oracle behind `secrets.SystemRandom().shuffle`
(which permutes its argument). `classes=None` and `classes=[]` are both
falsy in `if require_each and classes:`, so `None` is modelled as `[]`. -/
def generate_single_password (length : ℤ) (charset : List Char)
    (require_each : Bool) (classes : List (String × List Char))
    (r : ℕ → ℕ) (shuffle : List Char → List Char) :
    Except PwError (List Char) :=
  if charset = [] then Except.error PwError.emptyCharset
  else if length < 1 then Except.error PwError.invalidLength
  else if require_each = true ∧ classes ≠ [] then
    let required_classes := classes.filter (fun cls => decide (cls.2 ≠ []))
    if length < (required_classes.length : ℤ) then Except.error PwError.lengthTooShort
    else
      let pw_start := draw_from_classes r 0 required_classes
      let pw_extra := draw_n r charset required_classes.length
        (length - (required_classes.length : ℤ)).toNat
      Except.ok (shuffle (pw_start ++ pw_extra))
  else
    Except.ok (draw_n r charset 0 length.toNat)

/-! ## Helper lemmas -/

theorem secure_choice_mem (seq : List Char) (n : ℕ) (h : seq ≠ []) :
    secure_choice seq n ∈ seq := by
  have hlt : n % seq.length < seq.length := Nat.mod_lt _ (List.length_pos.2 h)
  rw [secure_choice, List.getD_eq_getElem _ _ hlt]
  exact List.getElem_mem hlt

theorem length_draw_from_classes (r : ℕ → ℕ) (k : ℕ) (cls : List (String × List Char)) :
    (draw_from_classes r k cls).length = cls.length := by
  induction cls generalizing k with
  | nil => rfl
  | cons cl0 rest ih => simp [draw_from_classes, ih]

theorem mem_draw_from_classes (r : ℕ → ℕ) (k : ℕ) (cls : List (String × List Char))
    (h : ∀ cl ∈ cls, cl.2 ≠ []) :
    ∀ c ∈ draw_from_classes r k cls, ∃ cl ∈ cls, c ∈ cl.2 := by
  induction cls generalizing k with
  | nil => intro c hc; cases hc
  | cons cl0 rest ih =>
    intro c hc
    rcases List.mem_cons.1 hc with rfl | hc2
    · exact ⟨cl0, List.mem_cons_self _ _, secure_choice_mem _ _ (h cl0 (List.mem_cons_self _ _))⟩
    · obtain ⟨cl, hcl, hccl⟩ :=
        ih (k + 1) (fun cl hcl => h cl (List.mem_cons_of_mem _ hcl)) c hc2
      exact ⟨cl, List.mem_cons_of_mem _ hcl, hccl⟩

theorem draw_from_classes_covers (r : ℕ → ℕ) (k : ℕ) (cls : List (String × List Char))
    (cl : String × List Char) (hmem : cl ∈ cls) (hne : cl.2 ≠ []) :
    ∃ c ∈ draw_from_classes r k cls, c ∈ cl.2 := by
  induction cls generalizing k with
  | nil => cases hmem
  | cons cl0 rest ih =>
    rcases List.mem_cons.1 hmem with rfl | hmem2
    · exact ⟨secure_choice cl.2 (r k), List.mem_cons_self _ _, secure_choice_mem _ _ hne⟩
    · obtain ⟨c, hc1, hc2⟩ := ih (k + 1) hmem2
      exact ⟨c, List.mem_cons_of_mem _ hc1, hc2⟩

theorem length_draw_n (r : ℕ → ℕ) (cs : List Char) (k n : ℕ) :
    (draw_n r cs k n).length = n := by
  induction n generalizing k with
  | zero => rfl
  | succ m ih => simp [draw_n, ih]

theorem mem_draw_n (r : ℕ → ℕ) (cs : List Char) (h : cs ≠ []) (k n : ℕ) :
    ∀ c ∈ draw_n r cs k n, c ∈ cs := by
  induction n generalizing k with
  | zero => intro c hc; cases hc
  | succ m ih =>
    intro c hc
    rcases List.mem_cons.1 hc with rfl | hc2
    · exact secure_choice_mem _ _ h
    · exact ih (k + 1) c hc2

theorem generate_error_of_empty (length : ℤ) (charset : List Char) (require_each : Bool)
    (classes : List (String × List Char)) (r : ℕ → ℕ) (shuffle : List Char → List Char)
    (h : charset = []) :
    generate_single_password length charset require_each classes r shuffle =
      Except.error PwError.emptyCharset := by
  simp only [generate_single_password]
  rw [if_pos h]

theorem generate_error_of_invalid_length (length : ℤ) (charset : List Char)
    (require_each : Bool) (classes : List (String × List Char)) (r : ℕ → ℕ)
    (shuffle : List Char → List Char) (h1 : charset ≠ []) (h2 : length < 1) :
    generate_single_password length charset require_each classes r shuffle =
      Except.error PwError.invalidLength := by
  simp only [generate_single_password]
  rw [if_neg h1, if_pos h2]

theorem generate_error_of_length_too_short (length : ℤ) (charset : List Char)
    (classes : List (String × List Char)) (r : ℕ → ℕ) (shuffle : List Char → List Char)
    (h1 : charset ≠ []) (h2 : ¬ length < 1) (h3 : classes ≠ [])
    (h4 : length < ((classes.filter fun cls => decide (cls.2 ≠ [])).length : ℤ)) :
    generate_single_password length charset true classes r shuffle =
      Except.error PwError.lengthTooShort := by
  simp only [generate_single_password]
  rw [if_neg h1, if_neg h2, if_pos ⟨trivial, h3⟩, if_pos h4]

theorem generate_eq_require_each (length : ℤ) (charset : List Char)
    (classes : List (String × List Char)) (r : ℕ → ℕ) (shuffle : List Char → List Char)
    (h1 : charset ≠ []) (h2 : ¬ length < 1) (h3 : classes ≠ [])
    (h4 : ¬ length < ((classes.filter fun cls => decide (cls.2 ≠ [])).length : ℤ)) :
    generate_single_password length charset true classes r shuffle =
      Except.ok (shuffle
        (draw_from_classes r 0 (classes.filter fun cls => decide (cls.2 ≠ [])) ++
         draw_n r charset (classes.filter fun cls => decide (cls.2 ≠ [])).length
           (length - ((classes.filter fun cls => decide (cls.2 ≠ [])).length : ℤ)).toNat)) := by
  simp only [generate_single_password]
  rw [if_neg h1, if_neg h2, if_pos ⟨trivial, h3⟩, if_neg h4]

theorem generate_eq_plain (length : ℤ) (charset : List Char) (require_each : Bool)
    (classes : List (String × List Char)) (r : ℕ → ℕ) (shuffle : List Char → List Char)
    (h1 : charset ≠ []) (h2 : ¬ length < 1) (h3 : ¬ (require_each = true ∧ classes ≠ [])) :
    generate_single_password length charset require_each classes r shuffle =
      Except.ok (draw_n r charset 0 length.toNat) := by
  simp only [generate_single_password]
  rw [if_neg h1, if_neg h2, if_neg h3]

set_option maxHeartbeats 8000000 in
set_option maxRecDepth 1000000 in
theorem build_charset_check : ∀ a b c d e : Bool,
    (build_charset a b c d e).Nodup ∧
    (build_charset a b c d e).Pairwise
      (fun x y => (x.isAlphanum && !y.isAlphanum) = true ∨
        (x.isAlphanum = y.isAlphanum ∧ x.toNat < y.toNat)) := by
  decide

/-! ## Claim theorems -/

/-- C4: for every combination of the five boolean inputs, `build_charset`
is deterministic (identical arguments give identical output), its output
has no duplicate characters, and it is ordered with all alphanumeric
characters first in ascending code point, followed by the remaining
characters in ascending code point. -/
theorem C4_build_charset_deterministic_nodup_ordered :
    ∀ a b c d e : Bool,
      (build_charset a b c d e).Nodup ∧
      (build_charset a b c d e).Pairwise
        (fun x y => (x.isAlphanum && !y.isAlphanum) = true ∨
          (x.isAlphanum = y.isAlphanum ∧ x.toNat < y.toNat)) ∧
      (∀ a2 b2 c2 d2 e2 : Bool, a = a2 → b = b2 → c = c2 → d = d2 → e = e2 →
        build_charset a b c d e = build_charset a2 b2 c2 d2 e2) := by
  intro a b c d e
  refine ⟨(build_charset_check a b c d e).1, (build_charset_check a b c d e).2, ?_⟩
  rintro a2 b2 c2 d2 e2 rfl rfl rfl rfl rfl
  rfl

/-- Witness for C4 at a concrete input. -/
theorem C4_witness :
    build_charset true true true true true = build_charset true true true true true :=
  (C4_build_charset_deterministic_nodup_ordered true true true true true).2.2
    true true true true true rfl rfl rfl rfl rfl

set_option maxHeartbeats 4000000 in
set_option maxRecDepth 1000000 in
/-- C5: for every combination of the four class-selection flags, when the
exclusion flag is set none of the five ambiguous characters O, 0, I, l, 1
(the list `AMBIGUOUS_CHARS`) appears in the alphabet `build_charset` returns. -/
theorem C5_build_charset_no_ambiguous :
    ∀ a b c d : Bool,
      (build_charset a b c d true).all (fun ch => !(AMBIGUOUS_CHARS.contains ch)) = true := by
  decide

/-- C6: `strength_label` classifies its input into the five ordered bands
with lower-inclusive boundaries, and in particular maps 28 to "Weak" and
80 to "Very Strong". -/
theorem C6_strength_label_bands :
    (∀ b : ℚ,
      (b < 28 → strength_label b = "Very Weak") ∧
      (28 ≤ b → b < 36 → strength_label b = "Weak") ∧
      (36 ≤ b → b < 60 → strength_label b = "Reasonable") ∧
      (60 ≤ b → b < 80 → strength_label b = "Strong") ∧
      (80 ≤ b → strength_label b = "Very Strong")) ∧
    strength_label 28 = "Weak" ∧ strength_label 80 = "Very Strong" := by
  refine ⟨fun b => ⟨?_, ?_, ?_, ?_, ?_⟩, by norm_num [strength_label], by norm_num [strength_label]⟩
  · intro h1
    rw [strength_label, if_pos h1]
  · intro h1 h2
    rw [strength_label, if_neg (by linarith), if_pos h2]
  · intro h1 h2
    rw [strength_label, if_neg (by linarith), if_neg (by linarith), if_pos h2]
  · intro h1 h2
    rw [strength_label, if_neg (by linarith), if_neg (by linarith), if_neg (by linarith),
      if_pos h2]
  · intro h1
    rw [strength_label, if_neg (by linarith), if_neg (by linarith), if_neg (by linarith),
      if_neg (by linarith)]

/-- Witness for C6 at the boundary input 28. -/
theorem C6_witness : strength_label 28 = "Weak" :=
  (C6_strength_label_bands.1 28).2.1 (le_refl 28) (by norm_num)

/-- C10: `strength_label` is monotone: a larger bits value never gets a
label lower in the order Very Weak < Weak < Reasonable < Strong <
Very Strong. -/
theorem C10_strength_label_monotone :
    ∀ b1 b2 : ℚ, b1 ≤ b2 →
      labelRank (strength_label b1) ≤ labelRank (strength_label b2) := by
  intro b1 b2 h
  unfold strength_label
  split_ifs <;> first | decide | (exfalso; linarith)

/-- Witness for C10 at a concrete pair. -/
theorem C10_witness :
    labelRank (strength_label 30) ≤ labelRank (strength_label 75) :=
  C10_strength_label_monotone 30 75 (by norm_num)

/-- C7: `calculate_entropy_bits` returns 0 whenever either argument is
nonpositive, returns `length * log2(alphabet_size)` otherwise, and
returns exactly 10 at alphabet size 2 and length 10. -/
theorem C7_calculate_entropy_bits :
    (∀ s l : ℤ, s ≤ 0 ∨ l ≤ 0 → calculate_entropy_bits s l = 0) ∧
    (∀ s l : ℤ, 0 < s → 0 < l →
      calculate_entropy_bits s l = (l : ℝ) * Real.logb 2 (s : ℝ)) ∧
    calculate_entropy_bits 2 10 = 10 := by
  refine ⟨fun s l h => by rw [calculate_entropy_bits, if_pos h],
    fun s l hs hl => by
      rw [calculate_entropy_bits, if_neg ?_]
      push_neg
      exact ⟨hs, hl⟩, ?_⟩
  rw [calculate_entropy_bits, if_neg (by norm_num)]
  push_cast
  rw [Real.logb_self_eq_one (by norm_num)]
  norm_num

/-- Witness for C7: zero sentinel at alphabet size 0 and the exact value
at alphabet size 2, length 10. -/
theorem C7_witness :
    calculate_entropy_bits 0 5 = 0 ∧ calculate_entropy_bits 2 10 = 10 :=
  ⟨C7_calculate_entropy_bits.1 0 5 (Or.inl (by norm_num)), C7_calculate_entropy_bits.2.2⟩

/-- C1: for every non-empty alphabet and every length at least 1 (and, when
require_each is set, assuming every supplied class pool is a non-empty
subset of the alphabet and the length is at least the number of non-empty
class pools), `generate_single_password` returns a string of exactly
`length` characters, each a member of the alphabet — for every draw oracle
and every shuffle oracle that permutes its input. -/
theorem C1_generate_single_password_length_mem (length : ℤ) (charset : List Char)
    (require_each : Bool) (classes : List (String × List Char))
    (r : ℕ → ℕ) (shuffle : List Char → List Char)
    (hcs : charset ≠ []) (hlen : 1 ≤ length)
    (hsh : ∀ l : List Char, (shuffle l).Perm l)
    (hreq : require_each = true → classes ≠ [] →
      (∀ cls ∈ classes, cls.2 ≠ [] ∧ ∀ c ∈ cls.2, c ∈ charset) ∧
      ((classes.filter fun cls => decide (cls.2 ≠ [])).length : ℤ) ≤ length) :
    ∃ pw : List Char,
      generate_single_password length charset require_each classes r shuffle =
        Except.ok pw ∧
      (pw.length : ℤ) = length ∧ ∀ c ∈ pw, c ∈ charset := by
  have h2 : ¬ length < 1 := not_lt.2 hlen
  by_cases h3 : require_each = true ∧ classes ≠ []
  · obtain ⟨hmem, hfit⟩ := hreq h3.1 h3.2
    obtain ⟨hre, hcl⟩ := h3
    subst hre
    have h4 : ¬ length < ((classes.filter fun cls => decide (cls.2 ≠ [])).length : ℤ) :=
      not_lt.2 hfit
    refine ⟨_, generate_eq_require_each length charset classes r shuffle hcs h2 hcl h4,
      ?_, ?_⟩
    · rw [(hsh _).length_eq, List.length_append, length_draw_from_classes, length_draw_n]
      omega
    · intro c hc
      have hc2 := (hsh _).mem_iff.1 hc
      rcases List.mem_append.1 hc2 with hc3 | hc3
      · obtain ⟨cl, hcl1, hccl⟩ := mem_draw_from_classes r 0 _
          (fun cl hcl => of_decide_eq_true (List.mem_filter.1 hcl).2) c hc3
        exact (hmem cl (List.mem_filter.1 hcl1).1).2 c hccl
      · exact mem_draw_n r charset hcs _ _ c hc3
  · refine ⟨_, generate_eq_plain length charset require_each classes r shuffle hcs h2 h3,
      ?_, ?_⟩
    · rw [length_draw_n]
      omega
    · exact mem_draw_n r charset hcs 0 length.toNat

/-- Witness for C1 at a concrete require-each call. -/
theorem C1_witness :
    ∃ pw : List Char,
      generate_single_password 8 ("ab01".toList) true
        [("lower", "ab".toList), ("digits", "01".toList)] (fun k => k) id =
        Except.ok pw ∧
      (pw.length : ℤ) = 8 ∧ ∀ c ∈ pw, c ∈ "ab01".toList :=
  C1_generate_single_password_length_mem 8 ("ab01".toList) true
    [("lower", "ab".toList), ("digits", "01".toList)] (fun k => k) id
    (by decide) (by norm_num) (fun l => List.Perm.refl l)
    (fun _ _ => ⟨by decide, by decide⟩)

/-- C2: for every call with require_each set and a non-empty classes list,
if the alphabet is non-empty and the length is at least the number of
classes with non-empty pools (and at least 1), the returned password
contains at least one character from every class whose pool is non-empty. -/
theorem C2_generate_single_password_covers_classes (length : ℤ) (charset : List Char)
    (classes : List (String × List Char)) (r : ℕ → ℕ) (shuffle : List Char → List Char)
    (hcs : charset ≠ []) (hlen : 1 ≤ length) (hcl : classes ≠ [])
    (hsh : ∀ l : List Char, (shuffle l).Perm l)
    (hfit : ((classes.filter fun cls => decide (cls.2 ≠ [])).length : ℤ) ≤ length) :
    ∃ pw : List Char,
      generate_single_password length charset true classes r shuffle = Except.ok pw ∧
      ∀ cls ∈ classes, cls.2 ≠ [] → ∃ c, c ∈ pw ∧ c ∈ cls.2 := by
  have h2 : ¬ length < 1 := not_lt.2 hlen
  have h4 : ¬ length < ((classes.filter fun cls => decide (cls.2 ≠ [])).length : ℤ) :=
    not_lt.2 hfit
  refine ⟨_, generate_eq_require_each length charset classes r shuffle hcs h2 hcl h4, ?_⟩
  intro cls hclmem hne
  have hreqmem : cls ∈ classes.filter fun cl => decide (cl.2 ≠ []) :=
    List.mem_filter.2 ⟨hclmem, decide_eq_true hne⟩
  obtain ⟨c, hc1, hc2⟩ := draw_from_classes_covers r 0 _ cls hreqmem hne
  exact ⟨c, (hsh _).mem_iff.2 (List.mem_append.2 (Or.inl hc1)), hc2⟩

/-- Witness for C2 at a concrete call with two non-empty classes. -/
theorem C2_witness :
    ∃ pw : List Char,
      generate_single_password 8 ("ab01".toList) true
        [("lower", "ab".toList), ("digits", "01".toList)] (fun k => k + 5) id =
        Except.ok pw ∧
      ∀ cls ∈ [("lower", "ab".toList), ("digits", "01".toList)],
        cls.2 ≠ [] → ∃ c, c ∈ pw ∧ c ∈ cls.2 :=
  C2_generate_single_password_covers_classes 8 ("ab01".toList)
    [("lower", "ab".toList), ("digits", "01".toList)] (fun k => k + 5) id
    (by decide) (by norm_num) (by decide) (fun l => List.Perm.refl l) (by decide)

/-- C3 counterexample: at length 0 with an empty alphabet — an input where
the claim demands `InvalidLengthError` (since length < 1) — the code
raises the empty-alphabet error instead, and the two error values differ. -/
theorem C3_counterexample :
    generate_single_password 0 [] false [] (fun _ => 0) id =
      Except.error PwError.emptyCharset ∧
    ((Except.error PwError.emptyCharset : Except PwError (List Char)) =
      Except.error PwError.invalidLength ↔ False) :=
  ⟨generate_error_of_empty 0 [] false [] (fun _ => 0) id rfl,
   ⟨fun h => PwError.noConfusion (Except.error.inj h), False.elim⟩⟩

/-- C3 (amended): the three validation failures are raised in program
order: `EmptyAlphabetError` whenever the alphabet is empty; otherwise
`InvalidLengthError` whenever length < 1; otherwise, when require_each
is set with a non-empty classes list, `LengthTooShortError` whenever
length is below the number of classes with non-empty pools. In each
case the result is the error, so no password is produced. -/
theorem C3_amended_error_order (length : ℤ) (charset : List Char)
    (require_each : Bool) (classes : List (String × List Char))
    (r : ℕ → ℕ) (shuffle : List Char → List Char) :
    (charset = [] →
      generate_single_password length charset require_each classes r shuffle =
        Except.error PwError.emptyCharset) ∧
    (charset ≠ [] → length < 1 →
      generate_single_password length charset require_each classes r shuffle =
        Except.error PwError.invalidLength) ∧
    (charset ≠ [] → 1 ≤ length → require_each = true → classes ≠ [] →
      length < ((classes.filter fun cls => decide (cls.2 ≠ [])).length : ℤ) →
      generate_single_password length charset require_each classes r shuffle =
        Except.error PwError.lengthTooShort) := by
  refine ⟨generate_error_of_empty length charset require_each classes r shuffle,
    generate_error_of_invalid_length length charset require_each classes r shuffle,
    fun h1 h2 h3 h4 h5 => ?_⟩
  subst h3
  exact generate_error_of_length_too_short length charset classes r shuffle
    h1 (not_lt.2 h2) h4 h5

/-- Witness for C3 (amended): a valid alphabet with an invalid length, and
a too-short require-each call. -/
theorem C3_witness :
    generate_single_password 0 ("a".toList) false [] (fun _ => 0) id =
      Except.error PwError.invalidLength ∧
    generate_single_password 1 ("ab01".toList) true
      [("lower", "ab".toList), ("digits", "01".toList)] (fun _ => 0) id =
      Except.error PwError.lengthTooShort :=
  ⟨(C3_amended_error_order 0 ("a".toList) false [] (fun _ => 0) id).2.1
      (by decide) (by norm_num),
   (C3_amended_error_order 1 ("ab01".toList) true
      [("lower", "ab".toList), ("digits", "01".toList)] (fun _ => 0) id).2.2
      (by decide) (by norm_num) rfl (by decide) (by decide)⟩

/-- C9: the preconditions are checked in a fixed order — alphabet
emptiness before length validity before the required-class count. With an
empty alphabet the result is the empty-alphabet error for every length
(in particular an invalid one), never the length error; and with a
non-empty alphabet and an invalid length the result is the length error
for every classes list (in particular one whose class count exceeds the
length). -/
theorem C9_precondition_check_order (length : ℤ) (charset : List Char)
    (require_each : Bool) (classes : List (String × List Char))
    (r : ℕ → ℕ) (shuffle : List Char → List Char) :
    (charset = [] →
      generate_single_password length charset require_each classes r shuffle =
        Except.error PwError.emptyCharset ∧
      (generate_single_password length charset require_each classes r shuffle =
        Except.error PwError.invalidLength ↔ False)) ∧
    (charset ≠ [] → length < 1 →
      generate_single_password length charset require_each classes r shuffle =
        Except.error PwError.invalidLength) := by
  refine ⟨fun h => ⟨generate_error_of_empty length charset require_each classes r shuffle h,
    ?_⟩, generate_error_of_invalid_length length charset require_each classes r shuffle⟩
  rw [generate_error_of_empty length charset require_each classes r shuffle h]
  exact ⟨fun h2 => PwError.noConfusion (Except.error.inj h2), False.elim⟩

/-- Witness for C9: empty alphabet together with invalid length 0 gives
the empty-alphabet error, not the length error. -/
theorem C9_witness :
    generate_single_password 0 [] true [("lower", "ab".toList)] (fun _ => 0) id =
      Except.error PwError.emptyCharset ∧
    (generate_single_password 0 [] true [("lower", "ab".toList)] (fun _ => 0) id =
      Except.error PwError.invalidLength ↔ False) :=
  (C9_precondition_check_order 0 [] true [("lower", "ab".toList)] (fun _ => 0) id).1 rfl

end PassGen
